import Mathlib

/-!
Verification of the poker trainer Decision Engine against its source.

The definitions below are a shallow embedding of the TypeScript sources:
  * `src/client/src/types/poker.ts`  — card/board/game-state data model
  * `src/client/src/types/gto.ts`    — GTO solution types, `getBestAction`, `isBlunder`
  * `src/client/src/hooks/usePokerGame.ts` — `createInitialGameState`, `processAction`,
    `getNextStreet`, and the hand loop of `makeAction`
  * `src/client/src/components/ui/Card.tsx` (HandReview) — `calculateScore`
  * `src/client/src/data/gtoSolutions.ts` — the sample dataset and `findGTOSolution`

JavaScript numbers are modelled as rationals; `Math.round` is modelled by
`jsRound` (floor of x + 1/2, which is how `Math.round` behaves); the JS
truthiness test `amount ? _ : _` on an optional number is modelled by a match
on `Option` together with a zero test, since `0` is falsy.
-/

set_option maxRecDepth 4000

namespace PokerTrainer

/-- Suits, from `types/poker.ts` (`'h' | 'd' | 'c' | 's'`). -/
inductive Suit where
  | h | d | c | s
deriving DecidableEq

/-- Ranks 2..A, from `types/poker.ts`. -/
inductive Rank where
  | r2 | r3 | r4 | r5 | r6 | r7 | r8 | r9 | rT | rJ | rQ | rK | rA
deriving DecidableEq

/-- A playing card, from `types/poker.ts`. -/
structure Card where
  rank : Rank
  suit : Suit
deriving DecidableEq

/-- Streets of a hand, from `types/poker.ts`. -/
inductive Street where
  | preflop | flop | turn | river
deriving DecidableEq

/-- Six-max seats, from `types/poker.ts`. -/
inductive Position where
  | UTG | HJ | CO | BTN | SB | BB
deriving DecidableEq

/-- Player actions, from `types/poker.ts`. -/
inductive ActionType where
  | fold | check | call | bet | raise
deriving DecidableEq

/-- A committed action record, from `types/poker.ts` (`PlayerAction`). -/
structure PlayerAction where
  type : ActionType
  amount : Option ℚ
  street : Street
deriving DecidableEq

/-- A seated player, from `types/poker.ts`. -/
structure Player where
  position : Position
  stack : ℚ
  cards : Option (List Card)
  isHero : Bool
deriving DecidableEq

/-- The hand state, from `types/poker.ts` (`GameState`). -/
structure GameState where
  street : Street
  pot : ℚ
  board : List Card
  players : List Player
  actionHistory : List PlayerAction
  currentPlayer : Position
deriving DecidableEq

/-- One GTO action option, from `types/gto.ts` (`GTOAction`). -/
structure GTOAction where
  action : ActionType
  size : Option ℚ
  frequency : ℚ
  ev : ℚ
deriving DecidableEq

/-- A stored GTO solution record, from `types/gto.ts` (`GTOSolution`). -/
structure GTOSolution where
  id : String
  street : Street
  position : Position
  villainPosition : Position
  board : List Card
  pot : ℚ
  stackDepth : ℚ
  heroHand : Option (List Card)
  handClass : Option String
  actionHistory : List String
  actions : List GTOAction
  description : Option String
deriving DecidableEq

/-- `getBestAction` from `types/gto.ts`: `solution.actions.reduce((best, current) =>
current.ev > best.ev ? current : best)`.  JS `reduce` without an initial value
throws on an empty array, hence the `Option` result. -/
def getBestAction (solution : GTOSolution) : Option GTOAction :=
  match solution.actions with
  | [] => none
  | first :: rest =>
      some (rest.foldl (fun best current => if best.ev < current.ev then current else best) first)

/-- `isBlunder` from `types/gto.ts`: `getBestAction(solution).ev - action.ev > 2.0`.
The `Option` propagates the empty-actions case of `getBestAction`. -/
def isBlunder (solution : GTOSolution) (action : GTOAction) : Option Bool :=
  (getBestAction solution).map (fun bestAction => decide ((2 : ℚ) < bestAction.ev - action.ev))

/-- `getNextStreet` from `usePokerGame.ts`: advance one step in
`['preflop','flop','turn','river']`, staying at `river` at the end. -/
def getNextStreet (current : Street) : Street :=
  match current with
  | Street.preflop => Street.flop
  | Street.flop => Street.turn
  | Street.turn => Street.river
  | Street.river => Street.river

/-- `createInitialGameState` from `usePokerGame.ts`: the predefined flop scenario
(board A♥K♦7♠, pot 7.5bb, CO villain with 100bb, BTN hero with 97.5bb and A♠Q♠). -/
def createInitialGameState : GameState :=
  { street := Street.flop
    pot := 15/2
    board := [⟨Rank.rA, Suit.h⟩, ⟨Rank.rK, Suit.d⟩, ⟨Rank.r7, Suit.s⟩]
    players :=
      [ { position := Position.CO, stack := 100, cards := none, isHero := false }
      , { position := Position.BTN, stack := 195/2
          cards := some [⟨Rank.rA, Suit.s⟩, ⟨Rank.rQ, Suit.s⟩], isHero := true } ]
    actionHistory := []
    currentPlayer := Position.BTN }

/-- `processAction` from `usePokerGame.ts`.  Mirrors the source exactly:
append the action (with the pre-action street) to the history; on `bet`/`raise`
add `amount * state.pot` to the pot (`0` when `amount` is absent or `0`, which
are falsy in JS); on `call` add `amount` when it is present and non-zero; then,
unless the action is a fold, advance the street one step and append the
hard-coded turn card 3♣ or river card 9♥ when the new street is turn or river.
Player stacks are never touched. -/
def processAction (state : GameState) (action : ActionType) (amount : Option ℚ) : GameState :=
  let s1 : GameState :=
    { state with
        actionHistory :=
          state.actionHistory ++ [{ type := action, amount := amount, street := state.street }] }
  let s2 : GameState :=
    if action = ActionType.bet ∨ action = ActionType.raise then
      let betAmount : ℚ :=
        match amount with
        | some a => if a = 0 then 0 else a * state.pot
        | none => 0
      { s1 with pot := s1.pot + betAmount }
    else if action = ActionType.call then
      match amount with
      | some a => if a = 0 then s1 else { s1 with pot := s1.pot + a }
      | none => s1
    else s1
  if action = ActionType.fold then s2
  else
    let newStreet := getNextStreet state.street
    let newBoard :=
      if newStreet = Street.turn then state.board ++ [⟨Rank.r3, Suit.c⟩]
      else if newStreet = Street.river then state.board ++ [⟨Rank.r9, Suit.h⟩]
      else state.board
    { s2 with street := newStreet, board := newBoard }

/-- A recorded per-decision review, from `usePokerGame.ts` (`Decision`). -/
structure Decision where
  street : Street
  action : ActionType
  amount : Option ℚ
  gtoFrequency : ℚ
  gtoEV : ℚ
  bestAction : ActionType
  bestActionFreq : ℚ
  isBlunder : Bool
deriving DecidableEq

/-- JS `Math.round`: round to the nearest integer with halves rounded up
(toward positive infinity), i.e. the floor of `q + 1/2`. -/
def jsRound (q : ℚ) : ℤ := ⌊q + 1/2⌋

/-- `calculateScore` from the HandReview component (`Card.tsx`):
100 for an empty list; otherwise accumulate a per-decision EV loss
(`3` for a blunder, `(1 - gtoFrequency) * 1.5` otherwise), take
`Math.max(0, 100 - (total / length) * 20)` and `Math.round` it. -/
def calculateScore (decisions : List Decision) : ℤ :=
  if decisions.length = 0 then 100
  else
    let totalEVLoss : ℚ :=
      decisions.foldl
        (fun acc d => acc + (if d.isBlunder then 3 else (1 - d.gtoFrequency) * 1.5)) 0
    let score : ℚ := max 0 (100 - (totalEVLoss / (decisions.length : ℚ)) * 20)
    jsRound score

/-- Scenario 1 of `data/gtoSolutions.ts`: BTN vs CO, A-high flop with top pair. -/
def scenario1 : GTOSolution :=
  { id := "flop-btn-vs-co-ahigh-toppair"
    street := Street.flop
    position := Position.BTN
    villainPosition := Position.CO
    board := [⟨Rank.rA, Suit.h⟩, ⟨Rank.rK, Suit.d⟩, ⟨Rank.r7, Suit.s⟩]
    pot := 15/2
    stackDepth := 100
    heroHand := none
    handClass := some ("top-pair")
    actionHistory :=
      [ "CO raises 2.5bb preflop", "BTN calls", "Flop: AhKd7s", "CO checks" ]
    actions :=
      [ { action := ActionType.check, size := none, frequency := 55/100, ev := 113/10 }
      , { action := ActionType.bet, size := some (33/100), frequency := 35/100, ev := 121/10 }
      , { action := ActionType.bet, size := some (66/100), frequency := 10/100, ev := 115/10 } ]
    description := some ("BTN with top pair on A-high board after CO checks") }

/-- Scenario 2 of `data/gtoSolutions.ts`: turn after betting the flop. -/
def scenario2 : GTOSolution :=
  { id := "turn-btn-vs-co-ahigh-toppair-afterbet"
    street := Street.turn
    position := Position.BTN
    villainPosition := Position.CO
    board := [⟨Rank.rA, Suit.h⟩, ⟨Rank.rK, Suit.d⟩, ⟨Rank.r7, Suit.s⟩, ⟨Rank.r3, Suit.c⟩]
    pot := 10
    stackDepth := 95
    heroHand := none
    handClass := some ("top-pair")
    actionHistory :=
      [ "CO raises 2.5bb preflop", "BTN calls", "Flop: AhKd7s", "CO checks"
      , "BTN bets 2.5bb (33% pot)", "CO calls", "Turn: 3c", "CO checks" ]
    actions :=
      [ { action := ActionType.check, size := none, frequency := 70/100, ev := 152/10 }
      , { action := ActionType.bet, size := some (50/100), frequency := 20/100, ev := 145/10 }
      , { action := ActionType.bet, size := some (75/100), frequency := 10/100, ev := 131/10 } ]
    description := some ("BTN with top pair on turn after flop c-bet, facing check") }

/-- Scenario 3 of `data/gtoSolutions.ts`: river decision. -/
def scenario3 : GTOSolution :=
  { id := "river-btn-vs-co-ahigh-toppair"
    street := Street.river
    position := Position.BTN
    villainPosition := Position.CO
    board :=
      [⟨Rank.rA, Suit.h⟩, ⟨Rank.rK, Suit.d⟩, ⟨Rank.r7, Suit.s⟩, ⟨Rank.r3, Suit.c⟩,
        ⟨Rank.r9, Suit.h⟩]
    pot := 10
    stackDepth := 95
    heroHand := none
    handClass := some ("top-pair")
    actionHistory :=
      [ "Flop: BTN bet 33% pot, CO called", "Turn: Both checked", "River: 9h", "CO checks" ]
    actions :=
      [ { action := ActionType.check, size := none, frequency := 80/100, ev := 155/10 }
      , { action := ActionType.bet, size := some (33/100), frequency := 15/100, ev := 148/10 }
      , { action := ActionType.bet, size := some (50/100), frequency := 5/100, ev := 135/10 } ]
    description := some ("River decision with top pair after turn check-back") }

/-- Scenario 4 of `data/gtoSolutions.ts`: facing a bet on the flop with top pair. -/
def scenario4 : GTOSolution :=
  { id := "flop-btn-vs-co-ahigh-toppair-facingbet"
    street := Street.flop
    position := Position.BTN
    villainPosition := Position.CO
    board := [⟨Rank.rA, Suit.h⟩, ⟨Rank.rK, Suit.d⟩, ⟨Rank.r7, Suit.s⟩]
    pot := 10
    stackDepth := 195/2
    heroHand := none
    handClass := some ("top-pair")
    actionHistory :=
      [ "CO raises 2.5bb preflop", "BTN calls", "Flop: AhKd7s", "CO bets 2.5bb (33% pot)" ]
    actions :=
      [ { action := ActionType.fold, size := none, frequency := 0, ev := -(5/2) }
      , { action := ActionType.call, size := none, frequency := 75/100, ev := 105/10 }
      , { action := ActionType.raise, size := some (66/100), frequency := 25/100, ev := 98/10 } ]
    description := some ("BTN facing flop bet with top pair") }

/-- Scenario 5 of `data/gtoSolutions.ts`: dry flop with a weak hand. -/
def scenario5 : GTOSolution :=
  { id := "flop-btn-vs-co-drytexture-weak"
    street := Street.flop
    position := Position.BTN
    villainPosition := Position.CO
    board := [⟨Rank.rK, Suit.s⟩, ⟨Rank.r7, Suit.h⟩, ⟨Rank.r2, Suit.c⟩]
    pot := 15/2
    stackDepth := 100
    heroHand := none
    handClass := some ("air")
    actionHistory := [ "CO raises preflop", "BTN calls", "Flop: Ks7h2c", "CO checks" ]
    actions :=
      [ { action := ActionType.check, size := none, frequency := 60/100, ev := 0 }
      , { action := ActionType.bet, size := some (33/100), frequency := 30/100, ev := -(5/10) }
      , { action := ActionType.bet, size := some (75/100), frequency := 10/100, ev := -(12/10) } ]
    description := some ("Dry K-high flop, missed completely, facing check") }

/-- Scenario 6 of `data/gtoSolutions.ts`: wet flop with a flush draw. -/
def scenario6 : GTOSolution :=
  { id := "flop-btn-vs-co-wetdraw"
    street := Street.flop
    position := Position.BTN
    villainPosition := Position.CO
    board := [⟨Rank.rQ, Suit.h⟩, ⟨Rank.rJ, Suit.h⟩, ⟨Rank.r7, Suit.h⟩]
    pot := 15/2
    stackDepth := 100
    heroHand := none
    handClass := some ("draw")
    actionHistory := [ "CO raises preflop", "BTN calls", "Flop: QhJh7h", "CO bets 5bb (66% pot)" ]
    actions :=
      [ { action := ActionType.fold, size := none, frequency := 0, ev := -(5/2) }
      , { action := ActionType.call, size := none, frequency := 85/100, ev := 85/10 }
      , { action := ActionType.raise, size := some 1, frequency := 15/100, ev := 78/10 } ]
    description := some ("Facing bet on wet board with flush draw") }

/-- The inline sample dataset `gtoSolutions` of `data/gtoSolutions.ts`. -/
def gtoSolutions : List GTOSolution :=
  [scenario1, scenario2, scenario3, scenario4, scenario5, scenario6]

/-- `findGTOSolution` from `data/gtoSolutions.ts`: linear scan of the sample
dataset matching on street, board length, and (when a non-empty hand class is
supplied, the empty string being falsy in JS) the hand class.  Board contents
beyond the length are not inspected. -/
def findGTOSolution (street : Street) (board : List Card) (handClass : Option String) :
    Option GTOSolution :=
  gtoSolutions.find? (fun s =>
    decide (s.street = street) &&
    decide (s.board.length = board.length) &&
    (match handClass with
     | none => true
     | some hc => if hc = "" then true else decide (s.handClass = some hc)))

/-- The hand loop of `makeAction` in `usePokerGame.ts`: starting from a state
and a completion flag, process the submitted actions in order; once the hand is
complete (a fold was made, or the post-action street is the river) further
actions are ignored, exactly as `makeAction` returns early on
`isHandComplete`.  Returns the successive post-action states. -/
def runHand (s : GameState) (complete : Bool) :
    List (ActionType × Option ℚ) → List GameState
  | [] => []
  | (t, a) :: rest =>
      if complete then []
      else
        let next := processAction s t a
        next :: runHand next (decide (t = ActionType.fold) || decide (next.street = Street.river)) rest

/-- The sequence of states observed during one hand played from
`createInitialGameState`, initial state included. -/
def handStates (acts : List (ActionType × Option ℚ)) : List GameState :=
  createInitialGameState :: runHand createInitialGameState false acts

/-- Board lengths seen along one hand. -/
def boardLengths (acts : List (ActionType × Option ℚ)) : List ℕ :=
  (handStates acts).map (fun st => st.board.length)

/-- The per-decision EV loss exactly as both the source and the spec describe it:
`3` flat for a blunder, `(1 - gtoFrequency) * 1.5` otherwise. -/
def evLossSpec (d : Decision) : ℚ := if d.isBlunder then 3 else (1 - d.gtoFrequency) * 1.5

/-- The scoring algorithm in spec form, including the rounding the code
performs: average the losses, scale by 20, subtract from 100, clamp below at 0,
round to the nearest integer (halves up); 100 for an empty list.  Compared
against `calculateScore` in the C5 theorem. -/
def scoreSpecRounded (decisions : List Decision) : ℤ :=
  if decisions = [] then 100
  else jsRound (max 0 (100 - ((decisions.map evLossSpec).sum / (decisions.length : ℚ)) * 20))

/-- The scoring algorithm exactly as the claim words it (average, scale by 20,
subtract from 100, clamp to [0, 100], return the result — no rounding).
Used to exhibit where the claim diverges from `calculateScore`. -/
def scoreClaimC5 (decisions : List Decision) : ℚ :=
  if decisions = [] then 100
  else min 100 (max 0 (100 - ((decisions.map evLossSpec).sum / (decisions.length : ℚ)) * 20))

/-! ### Concrete instances used by witnesses and counterexamples -/

/-- A check action tied on ev with `cxActB` but with lower frequency. -/
def cxActA : GTOAction :=
  { action := ActionType.check, size := none, frequency := 1/4, ev := 5 }

/-- A bet action tied on ev with `cxActA` but with higher frequency. -/
def cxActB : GTOAction :=
  { action := ActionType.bet, size := some (1/2), frequency := 3/4, ev := 5 }

/-- A solution whose two actions are tied for the maximum ev. -/
def cxSolC1 : GTOSolution :=
  { id := "c1-tie", street := Street.flop, position := Position.BTN
    villainPosition := Position.CO, board := [], pot := 1, stackDepth := 100
    heroHand := none, handClass := none, actionHistory := []
    actions := [cxActA, cxActB], description := none }

/-- Lower-ev action of the C1 witness solution. -/
def wActA : GTOAction :=
  { action := ActionType.check, size := none, frequency := 3/5, ev := 1 }

/-- Higher-ev action of the C1 witness solution. -/
def wActB : GTOAction :=
  { action := ActionType.bet, size := some (1/3), frequency := 2/5, ev := 2 }

/-- A small solution with a unique maximum-ev action. -/
def wSolC1 : GTOSolution :=
  { id := "c1-witness", street := Street.flop, position := Position.BTN
    villainPosition := Position.CO, board := [], pot := 1, stackDepth := 100
    heroHand := none, handClass := none, actionHistory := []
    actions := [wActA, wActB], description := none }

/-- Check option of the C7 witness spot. -/
def wActC7chk : GTOAction :=
  { action := ActionType.check, size := none, frequency := 1, ev := 11 }

/-- Best option of the C7 witness spot. -/
def wActC7bet : GTOAction :=
  { action := ActionType.bet, size := some 1, frequency := 0, ev := 13 }

/-- The C7 witness solution. -/
def wSolC7 : GTOSolution :=
  { id := "c7-witness", street := Street.flop, position := Position.BTN
    villainPosition := Position.CO
    board := [⟨Rank.rA, Suit.h⟩, ⟨Rank.rK, Suit.d⟩, ⟨Rank.r7, Suit.s⟩]
    pot := 15/2, stackDepth := 100, heroHand := none, handClass := none
    actionHistory := [], actions := [wActC7chk, wActC7bet], description := none }

/-- A concrete preflop state with an empty board, used to show that the
preflop-to-flop transition reveals no cards. -/
def preflopState : GameState :=
  { street := Street.preflop, pot := 3/2, board := []
    players := createInitialGameState.players, actionHistory := []
    currentPlayer := Position.BTN }

/-- A blunder decision (per-decision loss 3). -/
def dBlunderC6 : Decision :=
  { street := Street.flop, action := ActionType.fold, amount := none, gtoFrequency := 0
    gtoEV := 0, bestAction := ActionType.bet, bestActionFreq := 2/5, isBlunder := true }

/-- A near-optimal decision with `gtoFrequency` 0.9 (per-decision loss 0.15). -/
def dNearOptC6 : Decision :=
  { street := Street.turn, action := ActionType.check, amount := none, gtoFrequency := 9/10
    gtoEV := 0, bestAction := ActionType.check, bestActionFreq := 7/10, isBlunder := false }

/-- A blunder decision used by the C5 witness. -/
def wDecC5 : Decision :=
  { street := Street.flop, action := ActionType.check, amount := none, gtoFrequency := 1/2
    gtoEV := 0, bestAction := ActionType.bet, bestActionFreq := 2/5, isBlunder := true }

/-- A non-blunder decision with `gtoFrequency` 0.99, on which the unrounded
score 99.7 differs from the rounded value 100 the code returns. -/
def cxDecC5 : Decision :=
  { street := Street.flop, action := ActionType.check, amount := none, gtoFrequency := 99/100
    gtoEV := 0, bestAction := ActionType.bet, bestActionFreq := 2/5, isBlunder := false }

/-! ### Helper lemmas about `processAction` -/

/-- A fold leaves the board and the street untouched. -/
theorem processAction_fold_frame (s : GameState) (a : Option ℚ) :
    (processAction s ActionType.fold a).board = s.board ∧
    (processAction s ActionType.fold a).street = s.street :=
  ⟨rfl, rfl⟩

/-- Any non-fold action advances the street one step and appends the hard-coded
turn or river card exactly when the new street is turn or river. -/
theorem processAction_nonfold_frame (s : GameState) (t : ActionType) (a : Option ℚ)
    (h : t ≠ ActionType.fold) :
    (processAction s t a).street = getNextStreet s.street ∧
    (processAction s t a).board =
      (if getNextStreet s.street = Street.turn then s.board ++ [⟨Rank.r3, Suit.c⟩]
       else if getNextStreet s.street = Street.river then s.board ++ [⟨Rank.r9, Suit.h⟩]
       else s.board) := by
  cases t with
  | fold => exact absurd rfl h
  | check => exact ⟨rfl, rfl⟩
  | call => exact ⟨rfl, rfl⟩
  | bet => exact ⟨rfl, rfl⟩
  | raise => exact ⟨rfl, rfl⟩

/-- `processAction` always appends exactly the submitted action, tagged with the
pre-action street, to the history. -/
theorem processAction_history (s : GameState) (t : ActionType) (a : Option ℚ) :
    (processAction s t a).actionHistory =
      s.actionHistory ++ [{ type := t, amount := a, street := s.street }] := by
  cases t <;> cases a <;> simp only [processAction] <;> split_ifs <;> rfl

/-- `processAction` never modifies the players list (and hence no stack). -/
theorem processAction_players (s : GameState) (t : ActionType) (a : Option ℚ) :
    (processAction s t a).players = s.players := by
  cases t <;> cases a <;> simp only [processAction] <;> split_ifs <;> rfl

/-- Once the hand is complete, the loop ignores every further action. -/
theorem runHand_complete (s : GameState) (l : List (ActionType × Option ℚ)) :
    runHand s true l = [] := by
  cases l with
  | nil => rfl
  | cons x xs => cases x; simp [runHand]

/-- Decomposition of the `reduce` in `getBestAction`: the fold result splits the
input list into a strictly-smaller-ev left part, the result itself, and a
no-larger-ev right part; so the result is the first element attaining the
maximum ev. -/
theorem foldl_best_decomp (rest : List GTOAction) (first : GTOAction) :
    ∃ l₁ l₂ : List GTOAction,
      first :: rest =
        l₁ ++ (rest.foldl (fun best current => if best.ev < current.ev then current else best)
          first) :: l₂ ∧
      (∀ a ∈ l₁,
        a.ev < (rest.foldl (fun best current => if best.ev < current.ev then current else best)
          first).ev) ∧
      (∀ a ∈ l₂,
        a.ev ≤ (rest.foldl (fun best current => if best.ev < current.ev then current else best)
          first).ev) := by
  induction rest generalizing first with
  | nil => exact ⟨[], [], rfl, by simp, by simp⟩
  | cons c t ih =>
    by_cases hc : first.ev < c.ev
    · have hstep :
          (c :: t).foldl (fun best current => if best.ev < current.ev then current else best)
            first
            = t.foldl (fun best current => if best.ev < current.ev then current else best) c := by
        simp [List.foldl, hc]
      rw [hstep]
      obtain ⟨l₁, l₂, hdec, hlt, hle⟩ := ih c
      have hcb :
          c.ev ≤ (t.foldl (fun best current => if best.ev < current.ev then current else best)
            c).ev := by
        cases l₁ with
        | nil =>
          simp only [List.nil_append, List.cons.injEq] at hdec
          exact le_of_eq (congrArg GTOAction.ev hdec.1)
        | cons y ys =>
          simp only [List.cons_append, List.cons.injEq] at hdec
          exact le_of_lt (hdec.1 ▸ hlt y (by simp))
      refine ⟨first :: l₁, l₂, ?_, ?_, hle⟩
      · exact congrArg (List.cons first) hdec
      · intro a ha
        rcases List.mem_cons.mp ha with h1 | h1
        · subst h1; exact lt_of_lt_of_le hc hcb
        · exact hlt a h1
    · have hstep :
          (c :: t).foldl (fun best current => if best.ev < current.ev then current else best)
            first
            = t.foldl (fun best current => if best.ev < current.ev then current else best)
              first := by
        simp [List.foldl, hc]
      rw [hstep]
      obtain ⟨l₁, l₂, hdec, hlt, hle⟩ := ih first
      cases l₁ with
      | nil =>
        simp only [List.nil_append, List.cons.injEq] at hdec
        obtain ⟨hfb, htl⟩ := hdec
        refine ⟨[], c :: l₂, ?_, by simp, ?_⟩
        · rw [List.nil_append, ← hfb, ← htl]
        · intro x hx
          rcases List.mem_cons.mp hx with h1 | h1
          · subst h1
            exact hfb ▸ le_of_not_lt hc
          · exact hle x h1
      | cons y ys =>
        simp only [List.cons_append, List.cons.injEq] at hdec
        obtain ⟨hy, ht⟩ := hdec
        have hfirstlt :
            first.ev < (t.foldl (fun best current => if best.ev < current.ev then current else best)
              first).ev :=
          hy ▸ hlt y (by simp)
        refine ⟨first :: c :: ys, l₂, ?_, ?_, hle⟩
        · exact congrArg (fun l => first :: c :: l) ht
        · intro x hx
          rcases List.mem_cons.mp hx with h1 | h1
          · subst h1; exact hfirstlt
          · rcases List.mem_cons.mp h1 with h2 | h2
            · subst h2; exact lt_of_le_of_lt (le_of_not_lt hc) hfirstlt
            · exact hlt x (by simp [h2])

/-- Explicit form of the pot after `processAction`: only bet/raise (amount
times current pot) and call (amount) add chips, `0` and absent amounts add
nothing, and every other action leaves the pot alone. -/
theorem processAction_pot (s : GameState) (t : ActionType) (a : Option ℚ) :
    (processAction s t a).pot =
      s.pot +
        (if t = ActionType.bet ∨ t = ActionType.raise then
          (match a with | some x => if x = 0 then 0 else x * s.pot | none => 0)
         else if t = ActionType.call then
          (match a with | some x => if x = 0 then 0 else x | none => 0)
         else 0) := by
  cases t <;> cases a <;> simp only [processAction] <;> split_ifs <;> simp

/-- `Math.round` of a non-negative quantity is non-negative. -/
theorem jsRound_nonneg (q : ℚ) (h : 0 ≤ q) : 0 ≤ jsRound q :=
  Int.le_floor.mpr (by push_cast; linarith)

/-- `Math.round` of a quantity at most 100 is at most 100. -/
theorem jsRound_le_100 (q : ℚ) (h : q ≤ 100) : jsRound q ≤ 100 := by
  have h0 : (jsRound q : ℚ) ≤ q + 1/2 := Int.floor_le _
  have h1 : (jsRound q : ℚ) < 101 := by linarith
  have h2 : jsRound q < 101 := by exact_mod_cast h1
  omega

/-- The accumulation loop of `calculateScore` computes the sum of the
per-decision losses. -/
theorem foldl_evLoss_eq (ds : List Decision) (init : ℚ) :
    ds.foldl (fun acc d => acc + (if d.isBlunder then 3 else (1 - d.gtoFrequency) * 1.5)) init
      = init + (ds.map evLossSpec).sum := by
  induction ds generalizing init with
  | nil => simp
  | cons d tl ih =>
    rw [List.foldl_cons, ih, List.map_cons, List.sum_cons]
    have hL : evLossSpec d = if d.isBlunder then 3 else (1 - d.gtoFrequency) * 1.5 := rfl
    rw [hL]; ring

/-! ### Claim theorems -/

/-- Claim C10 (confirmed): `processAction` builds a fresh state (its input is
never written through), and the returned actionHistory is the input history
with exactly one record of the submitted action — its type, amount and the
pre-action street — appended. -/
theorem C10_processAction_appends_history :
    ∀ (s : GameState) (t : ActionType) (a : Option ℚ),
      (processAction s t a).actionHistory =
        s.actionHistory ++ [{ type := t, amount := a, street := s.street }] :=
  processAction_history

/-- Claim C2 (amended): `processAction` performs no legality validation and
has no error path; every submitted action, legal or not for the current
betting state, is accepted: one record is appended to the history and any
non-fold action advances the street. -/
theorem C2_no_validation :
    ∀ (s : GameState) (t : ActionType) (a : Option ℚ),
      (processAction s t a).actionHistory.length = s.actionHistory.length + 1 ∧
      (processAction s t a).street =
        (if t = ActionType.fold then s.street else getNextStreet s.street) := by
  intro s t a
  refine ⟨by rw [processAction_history]; simp, ?_⟩
  by_cases ht : t = ActionType.fold
  · subst ht; rw [if_pos rfl]; exact (processAction_fold_frame s a).2
  · rw [if_neg ht]; exact (processAction_nonfold_frame s t a ht).1

/-- Claim C2 counterexample: in the initial state no bet is outstanding (the
history is empty, the villain checked), so by the claim a call must fail with
`InvalidAction` and leave the state unchanged; instead `processAction` accepts
it, adds the amount to the pot, advances the street and records the action. -/
theorem C2_counterexample :
    (processAction createInitialGameState ActionType.call (some 2)).pot = 19/2 ∧
    (processAction createInitialGameState ActionType.call (some 2)).street = Street.turn ∧
    (processAction createInitialGameState ActionType.call (some 2)).actionHistory =
      [{ type := ActionType.call, amount := some 2, street := Street.flop }] ∧
    processAction createInitialGameState ActionType.call (some 2)
      ≠ createInitialGameState := by
  refine ⟨?_, rfl, rfl, ?_⟩
  · show createInitialGameState.pot + 2 = 19/2
    norm_num [createInitialGameState]
  · intro hcontra
    have hstreet := congrArg GameState.street hcontra
    simp [processAction, createInitialGameState, getNextStreet] at hstreet

/-- Claim C3 (amended): on bet and raise alike the pot increases by
`amount * pot` (zero when the amount is absent or zero) — a raise is treated
exactly like a bet, as a pot fraction — and the players list, hence every
stack, is left unchanged: no symmetric stack decrease happens. -/
theorem C3_bet_raise_pot :
    ∀ (s : GameState) (a : ℚ),
      (processAction s ActionType.bet (some a)).pot
          = s.pot + (if a = 0 then 0 else a * s.pot) ∧
      (processAction s ActionType.raise (some a)).pot
          = s.pot + (if a = 0 then 0 else a * s.pot) ∧
      (processAction s ActionType.bet (some a)).players = s.players ∧
      (processAction s ActionType.raise (some a)).players = s.players := by
  intro s a
  exact ⟨rfl, rfl, processAction_players s ActionType.bet (some a),
    processAction_players s ActionType.raise (some a)⟩

/-- Claim C3 counterexample: a raise with amount 2 on the 7.5bb initial pot
raises the pot by 15bb (amount x pot, exactly as a bet does), not by the
specified raise amount 2; and the player stacks are unchanged (still 100 and
97.5) even though the pot grew, so no stack decreased by the amount the pot
increased. -/
theorem C3_counterexample :
    (processAction createInitialGameState ActionType.bet (some 2)).pot
        = createInitialGameState.pot + 15 ∧
    (processAction createInitialGameState ActionType.raise (some 2)).pot
        = createInitialGameState.pot + 15 ∧
    (15 : ℚ) ≠ 2 ∧
    (processAction createInitialGameState ActionType.bet (some 2)).players
        = createInitialGameState.players ∧
    (processAction createInitialGameState ActionType.raise (some 2)).players
        = createInitialGameState.players ∧
    (createInitialGameState.players.map Player.stack) = [100, 195/2] := by
  refine ⟨?_, ?_, by norm_num, rfl, rfl, rfl⟩
  · show createInitialGameState.pot + 2 * createInitialGameState.pot
        = createInitialGameState.pot + 15
    norm_num [createInitialGameState]
  · show createInitialGameState.pot + 2 * createInitialGameState.pot
        = createInitialGameState.pot + 15
    norm_num [createInitialGameState]

/-- Claim C8 (confirmed): with a non-negative pot and a positive amount when
one is present, no action ever decreases the pot. -/
theorem C8_pot_monotone (s : GameState) (t : ActionType) (a : Option ℚ)
    (hpot : 0 ≤ s.pot) (hamt : ∀ x : ℚ, a = some x → 0 < x) :
    s.pot ≤ (processAction s t a).pot := by
  rw [processAction_pot]
  rcases a with _ | x
  · split_ifs <;> simp
  · have hx : (0:ℚ) < x := hamt x rfl
    have hmul : 0 ≤ x * s.pot := mul_nonneg hx.le hpot
    split_ifs <;> simp <;> split_ifs <;> linarith

/-- Witness for C8 at the initial state with a 1/3-pot bet. -/
theorem C8_witness :
    createInitialGameState.pot
      ≤ (processAction createInitialGameState ActionType.bet (some (1/3))).pot :=
  C8_pot_monotone createInitialGameState ActionType.bet (some (1/3))
    (by norm_num [createInitialGameState])
    (fun x hx => by rw [← Option.some.inj hx]; norm_num)

/-- Claim C1 (amended): for every solution with a non-empty actions list,
`getBestAction` returns the first action attaining the maximum ev: the result
is a member of the list, no action has a larger ev, and every action listed
before the result has a strictly smaller ev.  Ties in ev are therefore broken
by list position, not by frequency. -/
theorem C1_getBestAction_first_max (sol : GTOSolution) (best : GTOAction)
    (h : getBestAction sol = some best) :
    best ∈ sol.actions ∧ (∀ a ∈ sol.actions, a.ev ≤ best.ev) ∧
      ∃ l₁ l₂ : List GTOAction, sol.actions = l₁ ++ best :: l₂ ∧ ∀ a ∈ l₁, a.ev < best.ev := by
  rcases hact : sol.actions with _ | ⟨first, rest⟩
  · rw [getBestAction, hact] at h
    exact absurd h (by simp)
  · rw [getBestAction, hact, Option.some.injEq] at h
    obtain ⟨l₁, l₂, hdec, hlt, hle⟩ := foldl_best_decomp rest first
    rw [h] at hdec hlt hle
    rw [hdec]
    refine ⟨by simp, ?_, l₁, l₂, rfl, hlt⟩
    intro a ha
    rcases List.mem_append.mp ha with h1 | h1
    · exact le_of_lt (hlt a h1)
    · rcases List.mem_cons.mp h1 with h2 | h2
      · exact le_of_eq (congrArg GTOAction.ev h2)
      · exact hle a h2

/-- Witness for C1 on a concrete two-action solution with a unique maximum. -/
theorem C1_witness :
    wActB ∈ wSolC1.actions ∧ (∀ a ∈ wSolC1.actions, a.ev ≤ wActB.ev) ∧
      ∃ l₁ l₂ : List GTOAction, wSolC1.actions = l₁ ++ wActB :: l₂ ∧
        ∀ a ∈ l₁, a.ev < wActB.ev :=
  C1_getBestAction_first_max wSolC1 wActB rfl

/-- Claim C1 counterexample: on a solution whose two actions are tied for the
maximum ev, `getBestAction` returns the first, lower-frequency one, not the
tied action with the higher frequency as the claim requires. -/
theorem C1_counterexample :
    cxActA.ev = cxActB.ev ∧ cxActA.frequency < cxActB.frequency ∧
    getBestAction cxSolC1 = some cxActA ∧ getBestAction cxSolC1 ≠ some cxActB := by
  refine ⟨rfl, by norm_num [cxActA, cxActB], rfl, ?_⟩
  intro h
  have h2 : cxActA = cxActB := by
    have h1 : (some cxActA : Option GTOAction) = some cxActB := h
    exact Option.some.inj h1
  have h3 := congrArg GTOAction.action h2
  simp [cxActA, cxActB] at h3

/-- Claim C7 (confirmed): whenever `getBestAction` yields a best action,
`isBlunder` is true exactly when the best ev exceeds the chosen ev by more
than the 2.0bb threshold, and the best action itself is never a blunder. -/
theorem C7_isBlunder_iff (sol : GTOSolution) (a best : GTOAction)
    (h : getBestAction sol = some best) :
    (isBlunder sol a = some true ↔ (2 : ℚ) < best.ev - a.ev) ∧
    isBlunder sol best = some false := by
  constructor
  · rw [isBlunder, h]
    simp
  · rw [isBlunder, h]
    simp

/-- Witness for C7 on a concrete solution: the 2bb-gap check is not a blunder
and the best action is never one. -/
theorem C7_witness :
    ((isBlunder wSolC7 wActC7chk = some true ↔ (2 : ℚ) < wActC7bet.ev - wActC7chk.ev) ∧
      isBlunder wSolC7 wActC7bet = some false) :=
  C7_isBlunder_iff wSolC7 wActC7chk wActC7bet rfl

/-- Claim C5 (amended): `calculateScore` computes the per-decision loss (3 for
a blunder, `(1 - gtoFrequency) * 1.5` otherwise), averages it, scales by 20,
subtracts from 100, clamps below at 0 and returns the value rounded to the
nearest integer (halves up); with every `gtoFrequency` at most 1 the result
lies in [0, 100]; the empty list scores exactly 100. -/
theorem C5_calculateScore (ds : List Decision) (h : ∀ d ∈ ds, d.gtoFrequency ≤ 1) :
    calculateScore ds = scoreSpecRounded ds ∧
    0 ≤ calculateScore ds ∧ calculateScore ds ≤ 100 ∧ calculateScore [] = 100 := by
  have heq : calculateScore ds = scoreSpecRounded ds := by
    rcases ds with _ | ⟨d, tl⟩
    · rfl
    · simp only [calculateScore, scoreSpecRounded, foldl_evLoss_eq, List.length_cons]
      norm_num
      rw [if_neg (List.cons_ne_nil d tl)]
  refine ⟨heq, ?_, ?_, rfl⟩
  · rcases ds with _ | ⟨d, tl⟩
    · norm_num [calculateScore]
    · rw [heq]
      have hunfold : scoreSpecRounded (d :: tl)
          = jsRound (max 0
              (100 - (((d :: tl).map evLossSpec).sum / (((d :: tl).length : ℕ) : ℚ)) * 20)) :=
        rfl
      rw [hunfold]
      exact jsRound_nonneg _ (le_max_left _ _)
  · rcases ds with _ | ⟨d, tl⟩
    · norm_num [calculateScore]
    · rw [heq]
      have hunfold : scoreSpecRounded (d :: tl)
          = jsRound (max 0
              (100 - (((d :: tl).map evLossSpec).sum / (((d :: tl).length : ℕ) : ℚ)) * 20)) :=
        rfl
      rw [hunfold]
      apply jsRound_le_100
      have hsum : 0 ≤ ((d :: tl).map evLossSpec).sum := by
        apply List.sum_nonneg
        intro x hx
        obtain ⟨d', hd', rfl⟩ := List.mem_map.mp hx
        have hf := h d' hd'
        unfold evLossSpec
        split_ifs
        · norm_num
        · have h1 : (0:ℚ) ≤ 1 - d'.gtoFrequency := by linarith
          nlinarith
      have hterm : 0 ≤ (((d :: tl).map evLossSpec).sum / (((d :: tl).length : ℕ) : ℚ)) * 20 := by
        positivity
      have hmax : max 0 (100 - (((d :: tl).map evLossSpec).sum
          / (((d :: tl).length : ℕ) : ℚ)) * 20) ≤ 100 :=
        max_le (by norm_num) (by linarith)
      exact hmax

/-- Witness for C5 on a one-blunder decision list. -/
theorem C5_witness :
    calculateScore [wDecC5] = scoreSpecRounded [wDecC5] ∧
    0 ≤ calculateScore [wDecC5] ∧ calculateScore [wDecC5] ≤ 100 ∧ calculateScore [] = 100 :=
  C5_calculateScore [wDecC5]
    (by intro d hd; rw [List.mem_singleton] at hd; subst hd; norm_num [wDecC5])

/-- Claim C5 counterexample: on one non-blunder decision with frequency 0.99
the claimed algorithm (clamp, no rounding) yields 99.7, but the code rounds
and returns 100. -/
theorem C5_counterexample :
    calculateScore [cxDecC5] = 100 ∧ scoreClaimC5 [cxDecC5] = 997/10 ∧
    ((100 : ℚ) ≠ 997/10) := by
  refine ⟨?_, ?_, by norm_num⟩
  · norm_num [calculateScore, jsRound, cxDecC5, max_def, Int.floor_eq_iff]
  · norm_num [scoreClaimC5, evLossSpec, cxDecC5, max_def, min_def]

/-- Claim C6 counterexample: on the two-decision hand of the claim (one
blunder, one 0.9-frequency near-optimal decision) the code does not return
68. -/
theorem C6_counterexample : calculateScore [dBlunderC6, dNearOptC6] ≠ 68 := by
  norm_num [calculateScore, jsRound, dBlunderC6, dNearOptC6, max_def, Int.floor_eq_iff]

/-- Claim C6 (amended): on that hand the intermediate value is
100 - 31.5 = 68.5, and `Math.round` rounds halves up, so `calculateScore`
returns 69, not 68. -/
theorem C6_score_69 :
    calculateScore [dBlunderC6, dNearOptC6] = 69 ∧
    (100 : ℚ) - ((3 + (1 - 9/10) * 1.5) / 2) * 20 = 137/2 ∧
    jsRound (137/2) = 69 := by
  refine ⟨?_, by norm_num, ?_⟩
  · norm_num [calculateScore, jsRound, dBlunderC6, dNearOptC6, max_def, Int.floor_eq_iff]
  · norm_num [jsRound, Int.floor_eq_iff]

/-- Claim C9 (confirmed): `findGTOSolution` matches on street, board length
and hand class only, so boards differing by any suit relabelling (in fact any
two boards of equal length) resolve to the same stored solution; in particular
the monotone hearts and monotone clubs QJ7 boards resolve identically. -/
theorem C9_suit_symmetry :
    (∀ (σ : Suit → Suit) (street : Street) (hc : Option String) (board : List Card),
        findGTOSolution street (board.map (fun c => { rank := c.rank, suit := σ c.suit })) hc
          = findGTOSolution street board hc) ∧
    findGTOSolution Street.flop
        [⟨Rank.rQ, Suit.h⟩, ⟨Rank.rJ, Suit.h⟩, ⟨Rank.r7, Suit.h⟩] (some ("draw"))
      = findGTOSolution Street.flop
        [⟨Rank.rQ, Suit.c⟩, ⟨Rank.rJ, Suit.c⟩, ⟨Rank.r7, Suit.c⟩] (some ("draw")) := by
  constructor
  · intro σ street hc board
    simp [findGTOSolution, List.length_map]
  · rfl

/-- Claim C4 counterexample: the preflop-to-flop transition of `processAction`
reveals no cards (the board stays empty), and a fresh hand starts on the flop
with 3 board cards, so the board-length sequence of a hand never begins at
the empty board nor gains 3 cards at a preflop-to-flop step. -/
theorem C4_counterexample :
    (processAction preflopState ActionType.check none).street = Street.flop ∧
    (processAction preflopState ActionType.check none).board = [] ∧
    createInitialGameState.street = Street.flop ∧
    createInitialGameState.board.length = 3 :=
  ⟨rfl, rfl, rfl, rfl⟩

/-- Claim C4 (amended): a hand starts on the flop with 3 board cards, and the
run of distinct board lengths over a whole hand — actions are processed until
a fold or until the river is reached, as in `makeAction` — is `[3]`, `[3, 4]`
or `[3, 4, 5]`: the flop-to-turn and turn-to-river transitions reveal one card
each and a fold reveals none. -/
theorem C4_board_lengths (acts : List (ActionType × Option ℚ)) :
    (boardLengths acts).destutter (fun m n => m ≠ n) = [3] ∨
    (boardLengths acts).destutter (fun m n => m ≠ n) = [3, 4] ∨
    (boardLengths acts).destutter (fun m n => m ≠ n) = [3, 4, 5] := by
  have hlen0 : createInitialGameState.board.length = 3 := rfl
  rcases acts with _ | ⟨⟨t, a⟩, rest⟩
  · left; rfl
  · by_cases ht : t = ActionType.fold
    · subst ht
      left
      have hb := (processAction_fold_frame createInitialGameState a).1
      have hlist : boardLengths ((ActionType.fold, a) :: rest) = [3, 3] := by
        simp [boardLengths, handStates, runHand, runHand_complete, hb, hlen0]
      rw [hlist]; decide
    · have h1 := processAction_nonfold_frame createInitialGameState t a ht
      have hs1street : (processAction createInitialGameState t a).street = Street.turn := h1.1
      have hs1board : (processAction createInitialGameState t a).board.length = 4 := by
        rw [h1.2]; rfl
      rcases rest with _ | ⟨⟨t2, a2⟩, rest2⟩
      · right; left
        have hlist : boardLengths [(t, a)] = [3, 4] := by
          simp [boardLengths, handStates, runHand, hs1board, hlen0, ht]
        rw [hlist]; decide
      · by_cases ht2 : t2 = ActionType.fold
        · subst ht2
          right; left
          have hb2 :=
            (processAction_fold_frame (processAction createInitialGameState t a) a2).1
          have hs2len :
              (processAction (processAction createInitialGameState t a)
                ActionType.fold a2).board.length = 4 := by
            rw [hb2, hs1board]
          have hlist : boardLengths ((t, a) :: (ActionType.fold, a2) :: rest2) = [3, 4, 4] := by
            simp [boardLengths, handStates, runHand, runHand_complete, hs2len,
              hs1board, hlen0, ht, hs1street]
          rw [hlist]; decide
        · right; right
          have h2 :=
            processAction_nonfold_frame (processAction createInitialGameState t a) t2 a2 ht2
          have hs2street :
              (processAction (processAction createInitialGameState t a) t2 a2).street
                = Street.river := by
            rw [h2.1, hs1street]; rfl
          have hs2board :
              (processAction (processAction createInitialGameState t a) t2 a2).board.length
                = 5 := by
            rw [h2.2, hs1street]
            simp [getNextStreet, hs1board]
          have hlist : boardLengths ((t, a) :: (t2, a2) :: rest2) = [3, 4, 5] := by
            simp [boardLengths, handStates, runHand, runHand_complete,
              hs1board, hs2board, hlen0, ht, hs1street, hs2street]
          rw [hlist]; decide

end PokerTrainer
